import Mathlib

/-
  Shallow embedding of the PocketBench outcome-analysis and context-tracking
  core (src/PocketBench/turn_detection.py and src/PocketBench/models.py).

  Modelling conventions:
  * A frame is a total pixel function with explicit width/height (PIL images
    converted to OpenCV arrays preserve the pixel values; the RGB2BGR channel
    swap is irrelevant because every later step is per original channel).
  * cv2.absdiff is per-channel absolute difference; cv2.cvtColor BGR2GRAY on
    8-bit data is the fixed-point combination
    (4899*R + 9617*G + 1868*B + 8192) >> 14 of the per-channel values.
  * cv2.threshold(_, t, 255, THRESH_BINARY) marks a pixel iff its value is
    strictly greater than t.
  * cv2.findContours with RETR_EXTERNAL returns one external contour per
    8-connected foreground component, found in raster order: the closed chain
    of border pixels produced by border following from the component's
    raster-first pixel.  CHAIN_APPROX_SIMPLE merely drops collinear chain
    pixels, which leaves every Green-formula integral unchanged.
    cv2.contourArea is the absolute Green (shoelace) area of that polygon,
    kept exact as the integer twice-area; cv2.moments on a contour are the
    polygon moments m00 = shoelace/2, m10, m01 (kept in sixth-units), and
    int(m10/m00) is truncation toward zero of the exact rational quotient.
  * int(width * 0.85) and int(height * 0.8) are the truncated products
    width * 85 / 100 and height * 80 / 100 (the float rounding of 0.85 and
    0.8 never moves the truncation for any frame dimension in range).
  * cv2.absdiff on arrays of different shapes raises; analyze_move_outcome
    therefore fails on dimension-mismatched inputs before producing any
    outcome.  That failure is the AnalysisError.dimensionMismatch value.
-/

namespace PocketBench

/-- One 8-bit RGB pixel (each channel a natural number, 0..255 in practice). -/
structure Rgb where
  r : Nat
  g : Nat
  b : Nat

instance : Inhabited Rgb := ⟨⟨0, 0, 0⟩⟩

/-- A raster frame: dimensions plus a total pixel function. -/
structure Frame where
  width : Nat
  height : Nat
  px : Nat → Nat → Rgb

/-- Absolute difference of two naturals. -/
def absd (a b : Nat) : Nat := (a - b) + (b - a)

/-- Grayscale intensity of the per-channel absolute difference of two frames
at a pixel: cv2.absdiff followed by cv2.cvtColor(_, COLOR_BGR2GRAY). -/
def grayDiff (pre post : Frame) (x y : Nat) : Nat :=
  let p := pre.px x y
  let q := post.px x y
  (4899 * absd p.r q.r + 9617 * absd p.g q.g + 1868 * absd p.b q.b + 8192) / 16384

/-- A binary image (the thresholded change mask). -/
structure Mask where
  width : Nat
  height : Nat
  pix : Nat → Nat → Bool

/-- The binary change mask of `analyze_move_outcome`:
cv2.threshold(gray_diff, 40, 255, THRESH_BINARY). -/
def changeMask (pre post : Frame) : Mask :=
  ⟨pre.width, pre.height, fun x y => decide (40 < grayDiff pre post x y)⟩

/-- All pixel coordinates of a w × h image, in row-major scan order. -/
def allCoords (w h : Nat) : List (Nat × Nat) :=
  (List.range h).flatMap fun y => (List.range w).map fun x => (x, y)

/-- The foreground pixels of a binary mask, in scan order. -/
def foregroundCoords (m : Mask) : List (Nat × Nat) :=
  (allCoords m.width m.height).filter fun p => m.pix p.1 p.2

/-- 8-connectivity adjacency of two pixel coordinates (Chebyshev distance at
most 1; reflexive, which is harmless because a coordinate never has to be
compared with itself during region growth). -/
def adj8 (p q : Nat × Nat) : Bool :=
  decide (absd p.1 q.1 ≤ 1) && decide (absd p.2 q.2 ≤ 1)

/-- Region growth: repeatedly move every remaining pixel adjacent to the
current component into it.  Fuel-bounded; fuel `rest.length + 1` always
suffices because every productive step consumes at least one pixel. -/
def grow : Nat → List (Nat × Nat) → List (Nat × Nat) → List (Nat × Nat) × List (Nat × Nat)
  | 0, comp, rest => (comp, rest)
  | fuel + 1, comp, rest =>
    let pr := rest.partition fun q => comp.any fun c => adj8 c q
    if pr.1.isEmpty then (comp, rest)
    else grow fuel (comp ++ pr.1) pr.2

/-- Split a list of foreground pixels into connected regions. -/
def componentsAux : Nat → List (Nat × Nat) → List (List (Nat × Nat))
  | 0, _ => []
  | _, [] => []
  | fuel + 1, p :: rest =>
    let g := grow (rest.length + 1) [p] rest
    g.1 :: componentsAux fuel g.2

/-- The connected foreground regions of a binary mask
(cv2.findContours with RETR_EXTERNAL, modelled as pixel regions). -/
def components (m : Mask) : List (List (Nat × Nat)) :=
  componentsAux (foregroundCoords m).length (foregroundCoords m)

/-- The 8 neighbour offsets in clockwise order (image coordinates, y grows
downwards), starting east: E, SE, S, SW, W, NW, N, NE.  Used by the border
tracer. -/
def dirs8 : List (Int × Int) :=
  [(1, 0), (1, 1), (0, 1), (-1, 1), (-1, 0), (-1, -1), (0, -1), (1, -1)]

/-- Offset of direction index i (mod 8). -/
def dirGet (i : Nat) : Int × Int := dirs8.getD (i % 8) (1, 0)

/-- Foreground test of a mask at a signed coordinate (background outside the
image bounds). -/
def fgM (m : Mask) (p : Int × Int) : Bool :=
  decide (0 ≤ p.1) && decide (p.1 < (m.width : Int)) &&
  decide (0 ≤ p.2) && decide (p.2 < (m.height : Int)) &&
  m.pix p.1.toNat p.2.toNat

/-- Direction index of the step from q to the adjacent point r. -/
def dirIdxFromTo (q r : Int × Int) : Nat :=
  (dirs8.findIdx fun d => decide (d = (r.1 - q.1, r.2 - q.2))) % 8

/-- One step of Moore-neighbour border following: from border pixel p whose
backtrack (a background neighbour) sits in direction b, scan the 8
neighbours clockwise starting just after the backtrack; the first foreground
pixel q is the next border pixel and the background neighbour examined just
before it becomes q's backtrack.  None when p is isolated. -/
def traceStep (fg : Int × Int → Bool) (p : Int × Int) (b : Nat) :
    Option ((Int × Int) × Nat) :=
  (List.range 8).findSome? fun k =>
    let d := (b + 1 + k) % 8
    let q := (p.1 + (dirGet d).1, p.2 + (dirGet d).2)
    if fg q then
      let r := (p.1 + (dirGet ((d + 7) % 8)).1, p.2 + (dirGet ((d + 7) % 8)).2)
      some (q, dirIdxFromTo q r)
    else none

/-- Follow the border until the first post-start state recurs (the standard
stopping criterion); fuel-bounded for termination. -/
def traceLoop (fg : Int × Int → Bool) :
    Nat → (Int × Int) → Nat → ((Int × Int) × Nat) → List (Int × Int)
  | 0, _, _, _ => []
  | fuel + 1, p, b, s1 =>
    match traceStep fg p b with
    | none => []
    | some (q, b2) =>
      if (q, b2) = s1 then [] else q :: traceLoop fg fuel q b2 s1

/-- The traced external border of the component containing p0 (its
raster-first pixel, whose west and northern neighbours are background, so
the initial backtrack is west = index 4): the contour cv2.findContours
(RETR_EXTERNAL) associates with the component.  CHAIN_APPROX_SIMPLE only
drops collinear intermediate pixels, which leaves every Green-formula
integral below unchanged, so the uncompressed pixel chain is kept. -/
def traceContour (fg : Int × Int → Bool) (fuel : Nat) (p0 : Int × Int) :
    List (Int × Int) :=
  match traceStep fg p0 4 with
  | none => [p0]
  | some (q1, b1) => p0 :: q1 :: traceLoop fg fuel q1 b1 (q1, b1)

/-- External contour of one connected component (head of the component list
is its raster-first pixel). -/
def contourOf (m : Mask) (comp : List (Nat × Nat)) : List (Int × Int) :=
  match comp with
  | [] => []
  | p :: _ =>
    traceContour (fgM m) (8 * (foregroundCoords m).length + 8)
      ((p.1 : Int), (p.2 : Int))

/-- cv2.findContours(mask, RETR_EXTERNAL, CHAIN_APPROX_SIMPLE): one external
contour per 8-connected foreground component, in raster order of
discovery. -/
def contours (m : Mask) : List (List (Int × Int)) :=
  (components m).map (contourOf m)

/-- Consecutive vertex pairs of a closed polygon (cyclic successors). -/
def cyclicPairs (c : List (Int × Int)) :
    List ((Int × Int) × (Int × Int)) :=
  c.zip (c.rotate 1)

/-- The shoelace sum Σ (xᵢ·yᵢ₊₁ − xᵢ₊₁·yᵢ) of a closed polygon: exactly
twice the signed Green-formula area, i.e. 2·m00 of cv2.moments. -/
def shoelace (c : List (Int × Int)) : Int :=
  (cyclicPairs c).foldl
    (fun acc ab => acc + (ab.1.1 * ab.2.2 - ab.2.1 * ab.1.2)) 0

/-- cv2.contourArea kept exact as an integer: twice the polygon area, so the
code's `contourArea < 100` is `contourArea2 < 200`. -/
def contourArea2 (c : List (Int × Int)) : Nat := (shoelace c).natAbs

/-- Six times the polygon moment m10 of cv2.moments:
Σ (xᵢ + xᵢ₊₁)·(xᵢ·yᵢ₊₁ − xᵢ₊₁·yᵢ). -/
def m10six (c : List (Int × Int)) : Int :=
  (cyclicPairs c).foldl
    (fun acc ab =>
      acc + (ab.1.1 + ab.2.1) * (ab.1.1 * ab.2.2 - ab.2.1 * ab.1.2)) 0

/-- Six times the polygon moment m01 of cv2.moments:
Σ (yᵢ + yᵢ₊₁)·(xᵢ·yᵢ₊₁ − xᵢ₊₁·yᵢ). -/
def m01six (c : List (Int × Int)) : Int :=
  (cyclicPairs c).foldl
    (fun acc ab =>
      acc + (ab.1.2 + ab.2.2) * (ab.1.1 * ab.2.2 - ab.2.1 * ab.1.2)) 0

/-- Python's int() applied to the float true quotient of two integers:
truncation of the exact rational toward zero (the quotients that arise are
far inside double precision, so the float rounding never moves the
truncation). -/
def truncQuot (a b : Int) : Int :=
  if (0 ≤ a) = (0 ≤ b) then ((a.natAbs / b.natAbs : Nat) : Int)
  else -((a.natAbs / b.natAbs : Nat) : Int)

/-- `max(contours, key=cv2.contourArea)`: the first contour of maximal
polygon area (a later contour replaces the champion only when strictly
larger, as in Python's max). -/
def largestContour : List (List (Int × Int)) → Option (List (Int × Int)) :=
  List.foldl
    (fun best c =>
      match best with
      | none => some c
      | some b => if contourArea2 b < contourArea2 c then some c else some b)
    none

/-- The mask-level largest-changed-region lookup of
`MoveAnalyzer._find_impact_location` (the spec's ImpactLocalizer): largest
external contour by cv2.contourArea, minimum-area guard
`contourArea < 100 → none`, the `m00 == 0` guard, then the truncated
centroid int(m10/m00), int(m01/m00) of the polygon moments
(m10/m00 = m10six/(3·shoelace); the centroid of a traced outer border is
nonnegative, matching the Nat result type). -/
def locate (m : Mask) : Option (Nat × Nat) :=
  match largestContour (contours m) with
  | none => none
  | some c =>
    if contourArea2 c < 200 then none
    else if shoelace c = 0 then none
    else some ((truncQuot (m10six c) (3 * shoelace c)).toNat,
               (truncQuot (m01six c) (3 * shoelace c)).toNat)

/-- Failure mode of the analyzer: cv2.absdiff raises when the two frames do
not have identical dimensions. -/
inductive AnalysisError where
  | dimensionMismatch
deriving DecidableEq

/-- models.MoveOutcome with its field defaults. -/
structure MoveOutcome where
  hit_detected : Bool := false
  distance_result : String := "unknown"
  impact_location : Option (Nat × Nat) := none
deriving DecidableEq

instance : Inhabited MoveOutcome := ⟨{}⟩

/-- `MoveAnalyzer._find_impact_location`: absdiff (which fails on mismatched
dimensions), grayscale, threshold at 40, largest region, area guard,
centroid. -/
def find_impact_location (pre post : Frame) :
    Except AnalysisError (Option (Nat × Nat)) :=
  if pre.width = post.width ∧ pre.height = post.height then
    Except.ok (locate (changeMask pre post))
  else
    Except.error AnalysisError.dimensionMismatch

/-- The pixel coordinates of the crop window of
`MoveAnalyzer._check_hit_near_opponent`: a square of side 2 × margin (margin
80) centered at `c`, clamped to the w × h frame bounds. -/
def cropCoords (w h : Nat) (c : Nat × Nat) : List (Nat × Nat) :=
  let x1 := c.1 - 80
  let x2 := min w (c.1 + 80)
  let y1 := c.2 - 80
  let y2 := min h (c.2 + 80)
  (List.range (y2 - y1)).flatMap fun dy =>
    (List.range (x2 - x1)).map fun dx => (x1 + dx, y1 + dy)

/-- Number of crop pixels whose grayscale absolute difference is strictly
greater than 30 (cv2.threshold at 30 followed by cv2.countNonZero). -/
def changedPixelCount (pre post : Frame) (c : Nat × Nat) : Nat :=
  (cropCoords pre.width pre.height c).countP fun p =>
    decide (30 < grayDiff pre post p.1 p.2)

/-- `MoveAnalyzer._check_hit_near_opponent`: false on a degenerate (empty)
crop, otherwise true iff strictly more than 300 crop pixels changed. -/
def check_hit_near_opponent (pre post : Frame) (c : Nat × Nat) : Bool :=
  if (cropCoords pre.width pre.height c).isEmpty then false
  else decide (300 < changedPixelCount pre post c)

/-- The estimated opponent x coordinate: int(width * 0.85). -/
def opponentX (width : Nat) : Nat := width * 85 / 100

/-- The estimated opponent y coordinate: int(height * 0.8). -/
def opponentY (height : Nat) : Nat := height * 80 / 100

/-- `MoveAnalyzer.analyze_move_outcome`: impact localization, the fixed
opponent-position heuristic, the ±50-pixel tolerance band, and the hit
check. -/
def analyze_move_outcome (pre post : Frame) :
    Except AnalysisError MoveOutcome := do
  let impact ← find_impact_location pre post
  match impact with
  | none => pure { impact_location := none }
  | some (cx, cy) =>
    let ox := opponentX pre.width
    if ox + 50 < cx then
      pure { distance_result := "overshoot", impact_location := some (cx, cy) }
    else if cx < ox - 50 then
      pure { distance_result := "undershoot", impact_location := some (cx, cy) }
    else
      let hit := check_hit_near_opponent pre post (ox, opponentY pre.height)
      pure { hit_detected := hit,
             distance_result := if hit then "hit" else "near_miss",
             impact_location := some (cx, cy) }

/-- Direction of a tank move action ('R' or 'L' in models.py). -/
inductive MoveDir where
  | R
  | L
deriving DecidableEq

/-- The character rendered for a direction. -/
def dirStr : MoveDir → String
  | MoveDir.R => "R"
  | MoveDir.L => "L"

/-- A single-quote character (how Python repr renders the direction literal
inside a tuple). -/
def pyQuote : String := String.mk [Char.ofNat 39]

/-- Python str() of the move_actions tuple, e.g. ('R', 3). -/
def pyTupleStr (d : MoveDir) (n : Int) : String :=
  "(" ++ pyQuote ++ dirStr d ++ pyQuote ++ ", " ++ toString n ++ ")"

/-- Python str() of an optional int attribute: None or the number. -/
def pyOptInt : Option Int → String
  | none => "None"
  | some n => toString n

/-- Python format f-spec {x:+d}: always-signed decimal. -/
def pySigned (x : Int) : String :=
  if 0 ≤ x then "+" ++ toString x else toString x

/-- A move object as `GameContextManager.get_context_string` sees it, duck
typing included: `has_absolute_angle` / `has_absolute_power` model whether
the object carries the `absolute_angle` / `absolute_power` attributes at all
(true for models.MoveData, where the attribute may still hold None; false for
objects like models.GameMove that lack them).  Both relevant classes carry a
`move_actions` attribute, so only its value is modelled. -/
structure MoveData where
  angle_delta : Int
  power_delta : Int
  move_actions : Option (MoveDir × Int)
  has_absolute_angle : Bool
  has_absolute_power : Bool
  absolute_angle : Option Int
  absolute_power : Option Int
deriving DecidableEq

instance : Inhabited MoveData := ⟨⟨0, 0, none, false, false, none, none⟩⟩

/-- The per-entry move description of `get_context_string`: the absolute
angle/power format with signed delta annotations when the move carries the
absolute attributes, the delta-only fallback otherwise, with the move_actions
tuple appended when present (a present tuple is always truthy in Python). -/
def describe_move (m : MoveData) : String :=
  let base :=
    if m.has_absolute_angle && m.has_absolute_power then
      "angle=" ++ pyOptInt m.absolute_angle ++ " (Δ" ++ pySigned m.angle_delta
        ++ "), power=" ++ pyOptInt m.absolute_power ++ " (Δ"
        ++ pySigned m.power_delta ++ ")"
    else
      "angle_delta=" ++ toString m.angle_delta ++ ", power_delta="
        ++ toString m.power_delta
  match m.move_actions with
  | some (d, n) => base ++ ", move=" ++ pyTupleStr d n
  | none => base

/-- The per-entry result label of `get_context_string`. -/
def describe_result (o : MoveOutcome) : String :=
  if o.hit_detected then "HIT" else "MISS (" ++ o.distance_result ++ ")"

/-- `turn_detection.GameContextManager`: two parallel history lists and the
capacity bound. -/
structure GameContextManager where
  move_history : List MoveData
  outcome_history : List MoveOutcome
  max_history : Nat
deriving DecidableEq

/-- `GameContextManager.__init__(max_history)`: both histories start empty. -/
def GameContextManager.init (k : Nat) : GameContextManager := ⟨[], [], k⟩

/-- `GameContextManager.add_move_result`: append to both histories, then pop
the front of both when the move history exceeds the capacity. -/
def GameContextManager.add_move_result (s : GameContextManager)
    (move_data : MoveData) (outcome : MoveOutcome) : GameContextManager :=
  let mh := s.move_history ++ [move_data]
  let oh := s.outcome_history ++ [outcome]
  if s.max_history < mh.length then ⟨mh.drop 1, oh.drop 1, s.max_history⟩
  else ⟨mh, oh, s.max_history⟩

/-- The context_lines list built by the loop of
`GameContextManager.get_context_string`: one line per recent move (up to 3),
most recent first, indexing both histories from the back. -/
def GameContextManager.get_context_lines (s : GameContextManager) :
    List String :=
  let n := min 3 s.outcome_history.length
  (List.range n).map fun i =>
    "Move " ++ toString (n - i) ++ ": "
      ++ describe_move (s.move_history.getD (s.move_history.length - (i + 1))
            default)
      ++ " → "
      ++ describe_result
            (s.outcome_history.getD (s.outcome_history.length - (i + 1))
              default)

/-- `GameContextManager.get_context_string`: the empty-store sentinel, or the
header joined with the per-move lines. -/
def GameContextManager.get_context_string (s : GameContextManager) : String :=
  if s.outcome_history = [] then "No previous moves to reference."
  else "Recent moves:\n" ++ String.intercalate "\n" s.get_context_lines

/-- `GameContextManager.clear_history`: both histories are emptied. -/
def GameContextManager.clear_history (s : GameContextManager) :
    GameContextManager :=
  ⟨[], [], s.max_history⟩

/-- Fold a batch of add_move_result calls over a manager state. -/
def applyAdds (s : GameContextManager)
    (l : List (MoveData × MoveOutcome)) : GameContextManager :=
  l.foldl (fun s p => s.add_move_result p.1 p.2) s

/-- The states a GameContextManager can actually be in: freshly constructed,
or reached through add_move_result / clear_history. -/
inductive Reachable : GameContextManager → Prop where
  | init (k : Nat) : Reachable (GameContextManager.init k)
  | add (s : GameContextManager) (m : MoveData) (o : MoveOutcome) :
      Reachable s → Reachable (s.add_move_result m o)
  | clear (s : GameContextManager) :
      Reachable s → Reachable s.clear_history

/-! Concrete inputs used to exercise the definitions. -/

/-- A 12 × 12 all-black frame. -/
def preW : Frame := ⟨12, 12, fun _ _ => ⟨0, 0, 0⟩⟩

/-- A 12 × 12 frame that is white on the 10 × 10 top-left block and black
elsewhere. -/
def postW : Frame :=
  ⟨12, 12, fun x y => if x < 10 && y < 10 then ⟨255, 255, 255⟩ else ⟨0, 0, 0⟩⟩

/-- A 13 × 12 all-black frame (width differs from preW). -/
def preMism : Frame := ⟨13, 12, fun _ _ => ⟨0, 0, 0⟩⟩

/-- A 12 × 12 binary mask whose single foreground region is the 10 × 10
top-left block: pixel area exactly 100, but traced external contour of
polygon area 81 (the 9 × 9 square through the border pixel centers). -/
def mask100 : Mask :=
  ⟨12, 12, fun x y => decide (x < 10) && decide (y < 10)⟩

/-- A 26 × 26 binary mask whose single foreground region is the
one-pixel-thick hollow square ring: pixel area exactly 4·26 − 4 = 100, but
traced external contour of polygon area 25 × 25 = 625. -/
def ring26 : Mask :=
  ⟨26, 26, fun x y =>
    decide (x = 0) || decide (x = 25) || decide (y = 0) || decide (y = 25)⟩

/-- A 12 × 12 binary mask whose single foreground region is the 10 × 10
block plus one extra pixel at (10, 0): pixel area exactly 101, traced
external contour of polygon area 81.5. -/
def lshape101 : Mask :=
  ⟨12, 12, fun x y =>
    (decide (x < 10) && decide (y < 10)) ||
    (decide (x = 10) && decide (y = 0))⟩

/-- A 14 × 14 all-black frame. -/
def preB : Frame := ⟨14, 14, fun _ _ => ⟨0, 0, 0⟩⟩

/-- A 14 × 14 frame that is white on the 12 × 12 top-left block and black
elsewhere: change-region contour area 11 × 11 = 121 ≥ 100, centroid
int(5.5) = 5 in both coordinates. -/
def postB : Frame :=
  ⟨14, 14, fun x y => if x < 12 && y < 12 then ⟨255, 255, 255⟩ else ⟨0, 0, 0⟩⟩

/-- A concrete move carrying absolute angle/power attributes. -/
def mA : MoveData := ⟨5, -3, none, true, true, some 65, some 17⟩

/-- A default (all-unknown) outcome. -/
def oA : MoveOutcome := {}

/-- A concrete move without absolute attributes. -/
def mB : MoveData := ⟨-2, 4, none, false, false, none, none⟩

/-- A concrete hit outcome. -/
def oB : MoveOutcome := ⟨true, "hit", some (100, 50)⟩

/-! Helper lemmas. -/

/-- The grayscale diff of a frame with itself vanishes everywhere. -/
lemma grayDiff_self (F : Frame) (x y : Nat) : grayDiff F F x y = 0 := by
  simp [grayDiff, absd]

/-- The change mask of identical frames has no foreground pixels. -/
lemma foregroundCoords_self (F : Frame) :
    foregroundCoords (changeMask F F) = [] := by
  simp [foregroundCoords, changeMask, grayDiff_self]

/-- The mask-level lookup on the change mask of identical frames finds
nothing. -/
lemma locate_self (F : Frame) : locate (changeMask F F) = none := by
  unfold locate contours components
  rw [foregroundCoords_self]
  rfl

/-! Claims. -/

/-- C4: calling analyze_move_outcome on frames of differing dimensions fails
immediately with the dimension-mismatch error and never returns a
MoveOutcome. -/
theorem claim_C4 (pre post : Frame)
    (h : pre.width ≠ post.width ∨ pre.height ≠ post.height) :
    analyze_move_outcome pre post =
      Except.error AnalysisError.dimensionMismatch := by
  unfold analyze_move_outcome find_impact_location
  rw [if_neg (by tauto)]
  rfl

/-- Witness for C4: a 12-wide and a 13-wide frame. -/
theorem claim_C4_witness :
    analyze_move_outcome preW preMism =
      Except.error AnalysisError.dimensionMismatch :=
  claim_C4 preW preMism (Or.inl (by decide))

/-- C5: on identical before/after frames, analyze_move_outcome returns the
all-default outcome: distance_result unknown, no impact location, no hit. -/
theorem claim_C5 (F : Frame) :
    analyze_move_outcome F F =
      Except.ok { hit_detected := false, distance_result := "unknown",
                  impact_location := none } := by
  unfold analyze_move_outcome find_impact_location
  rw [if_pos ⟨rfl, rfl⟩, locate_self]
  rfl

/-- C9: every outcome produced by analyze_move_outcome has hit_detected true
exactly when distance_result is "hit", and distance_result is one of the five
lowercase tokens. -/
theorem claim_C9 (pre post : Frame) (out : MoveOutcome)
    (h : analyze_move_outcome pre post = Except.ok out) :
    (out.hit_detected = true ↔ out.distance_result = "hit") ∧
    out.distance_result ∈
      ["unknown", "overshoot", "undershoot", "hit", "near_miss"] := by
  unfold analyze_move_outcome at h
  cases hf : find_impact_location pre post with
  | error e => rw [hf] at h; exact absurd h (by simp [Bind.bind, Except.bind])
  | ok impact =>
    rw [hf] at h
    simp only [Bind.bind, Except.bind] at h
    match impact with
    | none =>
      simp only [pure, Except.pure, Except.ok.injEq] at h
      subst h
      exact ⟨by decide, by decide⟩
    | some (cx, cy) =>
      simp only at h
      split at h
      · simp only [pure, Except.pure, Except.ok.injEq] at h
        subst h
        refine ⟨?_, ?_⟩
        · show false = true ↔ "overshoot" = "hit"
          decide
        · show "overshoot" ∈ ["unknown", "overshoot", "undershoot", "hit", "near_miss"]
          decide
      · split at h
        · simp only [pure, Except.pure, Except.ok.injEq] at h
          subst h
          refine ⟨?_, ?_⟩
          · show false = true ↔ "undershoot" = "hit"
            decide
          · show "undershoot" ∈ ["unknown", "overshoot", "undershoot", "hit", "near_miss"]
            decide
        · simp only [pure, Except.pure, Except.ok.injEq] at h
          subst h
          cases hhit : check_hit_near_opponent pre post
              (opponentX pre.width, opponentY pre.height)
          · refine ⟨?_, ?_⟩
            · show false = true ↔ (if false = true then "hit" else "near_miss") = "hit"
              decide
            · show (if false = true then "hit" else "near_miss") ∈
                ["unknown", "overshoot", "undershoot", "hit", "near_miss"]
              decide
          · refine ⟨?_, ?_⟩
            · show true = true ↔ (if true = true then "hit" else "near_miss") = "hit"
              decide
            · show (if true = true then "hit" else "near_miss") ∈
                ["unknown", "overshoot", "undershoot", "hit", "near_miss"]
              decide

/-- Witness for C9: identical frames yield the default outcome, which
satisfies the invariant. -/
theorem claim_C9_witness :
    analyze_move_outcome preW preW = Except.ok {} ∧
    ((({} : MoveOutcome).hit_detected = true ↔
        ({} : MoveOutcome).distance_result = "hit") ∧
      ({} : MoveOutcome).distance_result ∈
        ["unknown", "overshoot", "undershoot", "hit", "near_miss"]) :=
  ⟨by rfl, claim_C9 preW preW {} (by rfl)⟩

/-- C1: whenever impact localization finds a qualifying centroid (cx, cy),
the outcome carries impact_location = (cx, cy), the opponent estimate is the
fixed (0.85 × width, 0.80 × height) heuristic, and the distance result is
overshoot / undershoot outside the ±50-pixel band around the opponent's x,
otherwise the hit check on the window centered at the opponent estimate
decides between hit (hit_detected true) and near_miss (hit_detected
false). -/
theorem claim_C1 (pre post : Frame) (cx cy : Nat)
    (h : find_impact_location pre post = Except.ok (some (cx, cy))) :
    (opponentX pre.width + 50 < cx →
      analyze_move_outcome pre post =
        Except.ok { hit_detected := false, distance_result := "overshoot",
                    impact_location := some (cx, cy) }) ∧
    (cx < opponentX pre.width - 50 →
      analyze_move_outcome pre post =
        Except.ok { hit_detected := false, distance_result := "undershoot",
                    impact_location := some (cx, cy) }) ∧
    (¬ opponentX pre.width + 50 < cx → ¬ cx < opponentX pre.width - 50 →
      check_hit_near_opponent pre post
          (opponentX pre.width, opponentY pre.height) = true →
      analyze_move_outcome pre post =
        Except.ok { hit_detected := true, distance_result := "hit",
                    impact_location := some (cx, cy) }) ∧
    (¬ opponentX pre.width + 50 < cx → ¬ cx < opponentX pre.width - 50 →
      check_hit_near_opponent pre post
          (opponentX pre.width, opponentY pre.height) = false →
      analyze_move_outcome pre post =
        Except.ok { hit_detected := false, distance_result := "near_miss",
                    impact_location := some (cx, cy) }) := by
  unfold analyze_move_outcome
  rw [h]
  simp only [Bind.bind, Except.bind]
  refine ⟨?_, ?_, ?_, ?_⟩
  · intro h1
    rw [if_pos h1]
    rfl
  · intro h2
    rw [if_neg (by omega), if_pos h2]
    rfl
  · intro h1 h2 hhit
    rw [if_neg h1, if_neg h2, hhit]
    rfl
  · intro h1 h2 hhit
    rw [if_neg h1, if_neg h2, hhit]
    rfl

set_option maxRecDepth 1000000 in
/-- Witness for C1: a 14 × 14 pair whose change region is a 12 × 12 block
with contour area 121 ≥ 100; its centroid (5, 5) lies inside the tolerance
band of the opponent estimate (11, 11), the hit check fails (144 changed
pixels ≤ 300), so the outcome is a near miss. -/
theorem claim_C1_witness :
    find_impact_location preB postB = Except.ok (some (5, 5)) ∧
    analyze_move_outcome preB postB =
      Except.ok { hit_detected := false, distance_result := "near_miss",
                  impact_location := some (5, 5) } :=
  ⟨by rfl,
   (claim_C1 preB postB 5 5 (by rfl)).2.2.2 (by decide) (by decide) (by rfl)⟩

/-- C6: the hit-check crop window never reaches outside the frame bounds, a
degenerate (empty) crop yields false, and otherwise the check is true exactly
when strictly more than 300 crop pixels differ above threshold 30. -/
theorem claim_C6 (pre post : Frame) (c : Nat × Nat) :
    (∀ p ∈ cropCoords pre.width pre.height c,
      p.1 < pre.width ∧ p.2 < pre.height) ∧
    (cropCoords pre.width pre.height c = [] →
      check_hit_near_opponent pre post c = false) ∧
    (cropCoords pre.width pre.height c ≠ [] →
      (check_hit_near_opponent pre post c = true ↔
        300 < changedPixelCount pre post c)) := by
  refine ⟨?_, ?_, ?_⟩
  · intro p hp
    simp only [cropCoords, List.mem_flatMap, List.mem_map, List.mem_range] at hp
    obtain ⟨dy, hdy, dx, hdx, rfl⟩ := hp
    constructor
    · simp only
      omega
    · simp only
      omega
  · intro hempty
    unfold check_hit_near_opponent
    rw [hempty]
    rfl
  · intro hne
    unfold check_hit_near_opponent
    rw [if_neg (by simp [List.isEmpty_iff, hne])]
    simp

/-- Witness for C6: the crop at the opponent estimate of the 12 × 12 witness
pair is non-degenerate, and the hit check there agrees with the
changed-pixel count criterion. -/
theorem claim_C6_witness :
    cropCoords 12 12 (10, 9) ≠ [] ∧
    (check_hit_near_opponent preW postW (10, 9) = true ↔
      300 < changedPixelCount preW postW (10, 9)) :=
  ⟨by decide, (claim_C6 preW postW (10, 9)).2.2 (by decide)⟩

/-- The freshly constructed manager has an empty move history. -/
lemma init_move_history (k : Nat) :
    (GameContextManager.init k).move_history = [] := rfl

/-- The freshly constructed manager has an empty outcome history. -/
lemma init_outcome_history (k : Nat) :
    (GameContextManager.init k).outcome_history = [] := rfl

/-- The freshly constructed manager stores its capacity. -/
lemma init_max_history (k : Nat) :
    (GameContextManager.init k).max_history = k := rfl

/-- add_move_result below capacity: plain append to both histories. -/
lemma add_eq_of_lt (s : GameContextManager) (m : MoveData) (o : MoveOutcome)
    (h : s.move_history.length < s.max_history) :
    s.add_move_result m o =
      ⟨s.move_history ++ [m], s.outcome_history ++ [o], s.max_history⟩ := by
  unfold GameContextManager.add_move_result
  rw [if_neg (by simp only [List.length_append, List.length_cons,
    List.length_nil]; omega)]

/-- add_move_result at (or above) capacity: append, then drop the oldest
entry of both histories. -/
lemma add_eq_of_ge (s : GameContextManager) (m : MoveData) (o : MoveOutcome)
    (h : s.max_history ≤ s.move_history.length) :
    s.add_move_result m o =
      ⟨(s.move_history ++ [m]).drop 1, (s.outcome_history ++ [o]).drop 1,
        s.max_history⟩ := by
  unfold GameContextManager.add_move_result
  rw [if_pos (by simp only [List.length_append, List.length_cons,
    List.length_nil]; omega)]

/-- Behaviour of a batch of add_move_result calls from any in-invariant
state: the histories end up as the trailing segment of the appended input
stream, with length min (old + new) capacity. -/
lemma applyAdds_spec :
    ∀ (l : List (MoveData × MoveOutcome)) (s : GameContextManager),
      s.move_history.length ≤ s.max_history →
      s.outcome_history.length = s.move_history.length →
      (applyAdds s l).move_history
          = (s.move_history ++ l.map Prod.fst).drop
              (s.move_history.length + l.length - s.max_history) ∧
      (applyAdds s l).outcome_history
          = (s.outcome_history ++ l.map Prod.snd).drop
              (s.move_history.length + l.length - s.max_history) ∧
      (applyAdds s l).move_history.length
          = min (s.move_history.length + l.length) s.max_history ∧
      (applyAdds s l).outcome_history.length
          = (applyAdds s l).move_history.length ∧
      (applyAdds s l).max_history = s.max_history := by
  intro l
  induction l with
  | nil =>
    intro s hlen hoh
    refine ⟨?_, ?_, ?_, hoh, rfl⟩
    · simp only [applyAdds, List.foldl_nil, List.map_nil, List.append_nil,
        List.length_nil, Nat.add_zero, Nat.sub_eq_zero_of_le hlen,
        List.drop_zero]
    · simp only [applyAdds, List.foldl_nil, List.map_nil, List.append_nil,
        List.length_nil, Nat.add_zero, Nat.sub_eq_zero_of_le hlen,
        List.drop_zero]
    · simp only [applyAdds, List.foldl_nil, List.length_nil]
      omega
  | cons a rest ih =>
    intro s hlen hoh
    have hstep : applyAdds s (a :: rest)
        = applyAdds (s.add_move_result a.1 a.2) rest := rfl
    by_cases hc : s.move_history.length < s.max_history
    · -- below capacity: the add is a plain append
      have hadd := add_eq_of_lt s a.1 a.2 hc
      have ih' := ih (s.add_move_result a.1 a.2)
        (by rw [hadd]; simp only [List.length_append, List.length_cons,
          List.length_nil]; omega)
        (by rw [hadd]; simp only [List.length_append, List.length_cons,
          List.length_nil]; omega)
      rw [hadd] at ih'
      simp only [List.length_append, List.length_cons, List.length_nil,
        List.append_assoc, List.singleton_append] at ih'
      rw [hstep, hadd]
      refine ⟨?_, ?_, ?_, ih'.2.2.2.1, ih'.2.2.2.2⟩
      · rw [ih'.1]
        simp only [List.map_cons, List.length_cons]
        congr 1
        omega
      · rw [ih'.2.1]
        simp only [List.map_cons, List.length_cons]
        congr 1
        omega
      · rw [ih'.2.2.1]
        simp only [List.length_cons]
        omega
    · -- at capacity: the add evicts the oldest entry
      have hk : s.max_history ≤ s.move_history.length := by omega
      have hadd := add_eq_of_ge s a.1 a.2 hk
      have hlen1 : (1 : Nat) ≤ (s.move_history ++ [a.1]).length := by
        simp only [List.length_append, List.length_cons, List.length_nil]
        omega
      have hlen2 : (1 : Nat) ≤ (s.outcome_history ++ [a.2]).length := by
        simp only [List.length_append, List.length_cons, List.length_nil]
        omega
      have ih' := ih (s.add_move_result a.1 a.2)
        (by rw [hadd]; simp only [List.length_drop, List.length_append,
          List.length_cons, List.length_nil]; omega)
        (by rw [hadd]; simp only [List.length_drop, List.length_append,
          List.length_cons, List.length_nil]; omega)
      rw [hadd] at ih'
      simp only [List.length_drop, List.length_append, List.length_cons,
        List.length_nil] at ih'
      rw [hstep, hadd]
      refine ⟨?_, ?_, ?_, ih'.2.2.2.1, ih'.2.2.2.2⟩
      · rw [ih'.1, ← List.drop_append_of_le_length hlen1, List.drop_drop]
        simp only [List.map_cons, List.append_assoc, List.singleton_append,
          List.length_cons]
        congr 1
        omega
      · rw [ih'.2.1, ← List.drop_append_of_le_length hlen2, List.drop_drop]
        simp only [List.map_cons, List.append_assoc, List.singleton_append,
          List.length_cons]
        congr 1
        omega
      · rw [ih'.2.2.1]
        simp only [List.length_cons]
        omega

/-- C2: starting from an empty store of capacity k ≥ 1, a batch of N adds
leaves exactly the min(N, k) most recently added pairs, in insertion order;
the length never exceeds k at any point of the sequence; and an add at
capacity evicts exactly the oldest entry of both histories. -/
theorem claim_C2 (k : Nat) (hk : 1 ≤ k)
    (adds : List (MoveData × MoveOutcome)) :
    (applyAdds (GameContextManager.init k) adds).move_history
        = (adds.map Prod.fst).drop (adds.length - k) ∧
    (applyAdds (GameContextManager.init k) adds).outcome_history
        = (adds.map Prod.snd).drop (adds.length - k) ∧
    (applyAdds (GameContextManager.init k) adds).move_history.length
        = min adds.length k ∧
    (applyAdds (GameContextManager.init k) adds).outcome_history.length
        = min adds.length k ∧
    (∀ n, n ≤ adds.length →
      (applyAdds (GameContextManager.init k) (adds.take n)).move_history.length
          ≤ k) ∧
    (∀ (s : GameContextManager) (m : MoveData) (o : MoveOutcome),
      s.max_history = k → s.move_history.length = k →
      s.outcome_history.length = k →
      (s.add_move_result m o).move_history
          = s.move_history.drop 1 ++ [m] ∧
      (s.add_move_result m o).outcome_history
          = s.outcome_history.drop 1 ++ [o] ∧
      (s.add_move_result m o).move_history.length = k) := by
  have base := applyAdds_spec adds (GameContextManager.init k)
    (by simp [GameContextManager.init]) (by simp [GameContextManager.init])
  simp only [init_move_history, init_outcome_history, init_max_history,
    List.length_nil, List.nil_append, Nat.zero_add] at base
  refine ⟨base.1, base.2.1, ?_, ?_, ?_, ?_⟩
  · rw [base.2.2.1]
  · rw [base.2.2.2.1, base.2.2.1]
  · intro n hn
    have bn := applyAdds_spec (adds.take n) (GameContextManager.init k)
      (by simp [GameContextManager.init]) (by simp [GameContextManager.init])
    simp only [init_move_history, init_outcome_history, init_max_history,
      List.length_nil, Nat.zero_add] at bn
    rw [bn.2.2.1]
    omega
  · intro s m o hmax hmh hoh
    have hge : s.max_history ≤ s.move_history.length := by omega
    have hadd := add_eq_of_ge s m o hge
    rw [hadd]
    have e1 : (s.move_history ++ [m]).drop 1 = s.move_history.drop 1 ++ [m] :=
      List.drop_append_of_le_length (by omega)
    have e2 : (s.outcome_history ++ [o]).drop 1
        = s.outcome_history.drop 1 ++ [o] :=
      List.drop_append_of_le_length (by omega)
    refine ⟨e1, e2, ?_⟩
    simp only [List.length_drop, List.length_append, List.length_cons,
      List.length_nil]
    omega

/-- Witness for C2: capacity 1 with two adds keeps only the second pair. -/
theorem claim_C2_witness :
    (applyAdds (GameContextManager.init 1) [(mA, oA), (mB, oB)]).move_history
        = [mB] ∧
    (applyAdds (GameContextManager.init 1) [(mA, oA), (mB, oB)]).outcome_history
        = [oB] ∧
    (applyAdds (GameContextManager.init 1)
        [(mA, oA), (mB, oB)]).move_history.length = 1 := by
  have h := claim_C2 1 (by decide) [(mA, oA), (mB, oB)]
  exact ⟨h.1, h.2.1, h.2.2.1⟩

set_option maxRecDepth 1000000 in
/-- C3 counterexample: qualification is not a function of the largest
region's pixel area at all.  The hollow ring whose single region has pixel
area exactly 100 qualifies (contour area 625, locate returns its centroid),
refuting "pixel area exactly 100 returns none"; the L-shaped blob whose
single region has pixel area 101 is rejected (contour area 81.5 < 100),
refuting "pixel area 101 qualifies". -/
theorem claim_C3_counterexample :
    ((components ring26).map List.length = [100] ∧
      locate ring26 = some (12, 12)) ∧
    ((components lshape101).map List.length = [101] ∧
      locate lshape101 = none) :=
  ⟨⟨by rfl, by rfl⟩, ⟨by rfl, by rfl⟩⟩

/-- C3 (amended): the minimum-area test is applied to cv2.contourArea — the
polygon area of the largest traced external contour — not to the region's
pixel count, and on that measure it is non-strict: the largest contour
qualifies (yielding the truncated polygon-moment centroid) exactly when its
area is at least 100 (twice-area at least 200), and is rejected when it is
below 100.  In pixel terms the original boundary is false on both sides: a
solid block of pixel area 100 or an L-blob of 101 has contour area 81 or
81.5 and is rejected, while a hollow ring of pixel area 100 has contour
area 625 and qualifies. -/
theorem claim_C3 (m : Mask) (c : List (Int × Int))
    (h : largestContour (contours m) = some c) :
    (200 ≤ contourArea2 c →
      locate m = some ((truncQuot (m10six c) (3 * shoelace c)).toNat,
                       (truncQuot (m01six c) (3 * shoelace c)).toNat)) ∧
    (contourArea2 c < 200 → locate m = none) := by
  have e : locate m =
      if contourArea2 c < 200 then none
      else if shoelace c = 0 then none
      else some ((truncQuot (m10six c) (3 * shoelace c)).toNat,
                 (truncQuot (m01six c) (3 * shoelace c)).toNat) := by
    unfold locate
    rw [h]
  constructor
  · intro h1
    have hnz : ¬ shoelace c = 0 := by
      intro heq
      rw [contourArea2, heq] at h1
      simp at h1
    rw [e, if_neg (by omega), if_neg hnz]
  · intro h2
    rw [e, if_pos h2]

set_option maxRecDepth 1000000 in
/-- Witness for C3 (amended): both branches at concrete masks — the ring
contour (area 625) qualifies and locate returns its truncated centroid,
while the solid 10 × 10 block's contour (area 81) is rejected. -/
theorem claim_C3_witness :
    (200 ≤ contourArea2 ((largestContour (contours ring26)).getD []) ∧
      locate ring26 =
        some ((truncQuot (m10six ((largestContour (contours ring26)).getD []))
                 (3 * shoelace ((largestContour (contours ring26)).getD []))).toNat,
              (truncQuot (m01six ((largestContour (contours ring26)).getD []))
                 (3 * shoelace ((largestContour (contours ring26)).getD []))).toNat)) ∧
    (contourArea2 ((largestContour (contours mask100)).getD []) < 200 ∧
      locate mask100 = none) :=
  ⟨⟨by decide,
    (claim_C3 ring26 ((largestContour (contours ring26)).getD [])
      (by rfl)).1 (by decide)⟩,
   ⟨by decide,
    (claim_C3 mask100 ((largestContour (contours mask100)).getD [])
      (by rfl)).2 (by decide)⟩⟩

/-- C10: in every reachable GameContextManager state the move history and the
outcome history have the same length, so entries stay pairwise aligned. -/
theorem claim_C10 (s : GameContextManager) (h : Reachable s) :
    s.move_history.length = s.outcome_history.length := by
  induction h with
  | init k => rfl
  | add s m o _ ih =>
    simp only [GameContextManager.add_move_result]
    split <;> simp [ih]
  | clear s _ _ => rfl

/-- Witness for C10: the freshly constructed manager. -/
theorem claim_C10_witness :
    (GameContextManager.init 5).move_history.length =
      (GameContextManager.init 5).outcome_history.length :=
  claim_C10 _ (Reachable.init 5)

/-- Negative indexing from the back of a list is indexing into its
reverse. -/
lemma getD_back {α : Type} (l : List α) (i : Nat) (d : α)
    (h : i < l.length) :
    l.getD (l.length - (i + 1)) d = l.reverse.getD i d := by
  rw [List.getD_eq_getElem?_getD, List.getD_eq_getElem?_getD,
    List.getElem?_reverse h]
  have e : l.length - 1 - i = l.length - (i + 1) := by omega
  rw [e]

/-- C7: on a non-empty store the rendered block is the header plus one line
per recent entry (up to 3, most recent first); each line numbers the move,
describes it with the absolute angle/power format (signed delta annotations)
when the move carries the absolute attributes and with the delta-only
fallback otherwise, appends the move action tuple when present, and ends
with an arrow and "HIT" when hit_detected else "MISS (<distance_result>)"
with the stored distance token. -/
theorem claim_C7 (s : GameContextManager)
    (hne : s.outcome_history ≠ [])
    (hlen : s.move_history.length = s.outcome_history.length) :
    (s.get_context_string
        = "Recent moves:\n" ++ String.intercalate "\n" s.get_context_lines) ∧
    (s.get_context_lines.length = min 3 s.outcome_history.length) ∧
    (∀ i, i < min 3 s.outcome_history.length →
      s.get_context_lines.getD i ""
          = "Move " ++ toString (min 3 s.outcome_history.length - i) ++ ": "
            ++ describe_move (s.move_history.reverse.getD i default)
            ++ " → "
            ++ describe_result (s.outcome_history.reverse.getD i default)) ∧
    (∀ m : MoveData,
      ((m.has_absolute_angle && m.has_absolute_power) = true →
        m.move_actions = none →
        describe_move m =
          "angle=" ++ pyOptInt m.absolute_angle ++ " (Δ"
            ++ pySigned m.angle_delta ++ "), power="
            ++ pyOptInt m.absolute_power ++ " (Δ"
            ++ pySigned m.power_delta ++ ")") ∧
      ((m.has_absolute_angle && m.has_absolute_power) = false →
        m.move_actions = none →
        describe_move m =
          "angle_delta=" ++ toString m.angle_delta ++ ", power_delta="
            ++ toString m.power_delta) ∧
      (∀ d n, m.move_actions = some (d, n) →
        describe_move m
            = describe_move { m with move_actions := none }
              ++ ", move=" ++ pyTupleStr d n)) ∧
    (∀ o : MoveOutcome,
      (o.hit_detected = true → describe_result o = "HIT") ∧
      (o.hit_detected = false →
        describe_result o = "MISS (" ++ o.distance_result ++ ")")) := by
  refine ⟨?_, ?_, ?_, ?_, ?_⟩
  · unfold GameContextManager.get_context_string
    rw [if_neg hne]
  · simp [GameContextManager.get_context_lines]
  · intro i hi
    have h1 : i < s.move_history.length := by omega
    have h2 : i < s.outcome_history.length := by omega
    simp only [GameContextManager.get_context_lines]
    rw [List.getD_eq_getElem?_getD, List.getElem?_map]
    rw [List.getElem?_range hi]
    show ("Move " ++ toString (min 3 s.outcome_history.length - i) ++ ": "
        ++ describe_move (s.move_history.getD
              (s.move_history.length - (i + 1)) default)
        ++ " → "
        ++ describe_result (s.outcome_history.getD
              (s.outcome_history.length - (i + 1)) default)) = _
    rw [getD_back _ _ _ h1, getD_back _ _ _ h2]
  · intro m
    refine ⟨?_, ?_, ?_⟩
    · intro hab hma
      simp [describe_move, hab, hma]
    · intro hab hma
      simp [describe_move, hab, hma]
    · intro d n hma
      simp [describe_move, hma]
  · intro o
    refine ⟨fun h => ?_, fun h => ?_⟩ <;> simp [describe_result, h]

/-- Witness for C7: a one-entry store renders exactly its single line. -/
theorem claim_C7_witness :
    (⟨[mA], [oA], 5⟩ : GameContextManager).get_context_lines.getD 0 ""
        = "Move " ++ toString (min 3 [oA].length - 0) ++ ": "
          ++ describe_move ([mA].reverse.getD 0 default)
          ++ " → " ++ describe_result ([oA].reverse.getD 0 default) :=
  (claim_C7 ⟨[mA], [oA], 5⟩ (by simp) rfl).2.2.1 0 (by decide)

/-- C8: the empty store renders the fixed sentinel; one add from empty
produces exactly one move/outcome line under the header; clearing any store
restores the sentinel. -/
theorem claim_C8 :
    (∀ k, (GameContextManager.init k).get_context_string
        = "No previous moves to reference.") ∧
    (∀ (k : Nat) (m : MoveData) (o : MoveOutcome), 1 ≤ k →
      ((GameContextManager.init k).add_move_result m o).get_context_lines.length
          = 1 ∧
      ((GameContextManager.init k).add_move_result m o).get_context_string
          = "Recent moves:\n" ++ ("Move 1: " ++ describe_move m ++ " → "
              ++ describe_result o)) ∧
    (∀ s : GameContextManager,
      s.clear_history.get_context_string
          = "No previous moves to reference.") := by
  refine ⟨fun k => rfl, ?_, fun s => rfl⟩
  intro k m o hk
  have hadd : (GameContextManager.init k).add_move_result m o
      = ⟨[m], [o], k⟩ := by
    rw [add_eq_of_lt _ _ _ (by simp [GameContextManager.init]; omega)]
    simp [GameContextManager.init]
  rw [hadd]
  constructor
  · simp [GameContextManager.get_context_lines]
  · simp only [GameContextManager.get_context_string,
      GameContextManager.get_context_lines]
    norm_num
    rfl

/-- Witness for C8: capacity 5, one concrete add. -/
theorem claim_C8_witness :
    (GameContextManager.init 5).get_context_string
        = "No previous moves to reference." ∧
    ((GameContextManager.init 5).add_move_result mA oA).get_context_lines.length
        = 1 ∧
    ((GameContextManager.init 5).add_move_result mA oA).get_context_string
        = "Recent moves:\nMove 1: angle=65 (Δ+5), power=17 (Δ-3) → MISS (unknown)" ∧
    (⟨[mA, mB], [oA, oB], 5⟩ : GameContextManager).clear_history.get_context_string
        = "No previous moves to reference." := by
  have h := claim_C8
  exact ⟨h.1 5, (h.2.1 5 mA oA (by decide)).1,
    (h.2.1 5 mA oA (by decide)).2, h.2.2 _⟩

end PocketBench
